import Mathlib

/-!
Verification of the `eyemodel` render orchestrator (`eyemodel/__init__.py`).

Part 1 embeds the progress-line parser: the Python regular expression
`RENDER_LINE_RE` (source lines 27-48) is modelled by a small backtracking
regular-expression engine whose semantics follow Python's `re` module
(leftmost match, greedy repetition with backtracking, `re.match` anchored
at the start of the string only).  The concrete pattern is transcribed
from the source, with the `re.VERBOSE` whitespace and comments stripped.

Part 2 embeds the percent-complete arithmetic of source line 302, which in
Python 2 is integer floor division and raises `ZeroDivisionError` when the
divisor is zero; the model returns `none` in exactly that case.
-/

namespace Eyemodel

/-- Python 2 `\d`: the ASCII decimal digits. -/
def isPyDigit (c : Char) : Bool := 48 ≤ c.toNat && c.toNat ≤ 57

/-- Python 2 `\s`: space, tab, newline, carriage return, vertical tab, form feed. -/
def isPySpace (c : Char) : Bool :=
  c = ' ' || c = '\t' || c = '\n' || c = '\r' || c = Char.ofNat 11 || c = Char.ofNat 12

/-- Python 2 `\S`. -/
def isPyNonSpace (c : Char) : Bool := !(isPySpace c)

/-- The character class `[\d.]`. -/
def isDigitDot (c : Char) : Bool := isPyDigit c || c = '.'

/-- The character class `[\d:.]`. -/
def isDigitColonDot (c : Char) : Bool := isPyDigit c || c = ':' || c = '.'

/-- The character class `[^,|]`. -/
def isNotCommaPipe (c : Char) : Bool := !(c = ',' || c = '|')

/-- Regular expressions, restricted to the connectives `RENDER_LINE_RE`
uses: literals, single-character classes, greedy star/plus over a
character class, numbered capture groups, sequencing. -/
inductive RE where
  | eps : RE
  | lit : List Char → RE
  | cls : (Char → Bool) → RE
  | star : (Char → Bool) → RE
  | plus : (Char → Bool) → RE
  | grp : Nat → RE → RE
  | seq : RE → RE → RE

/-- Capture environment: group number to captured characters. -/
def Caps : Type := Nat → Option (List Char)

/-- Consume a literal from the front of the input. -/
def dropLit : List Char → List Char → Option (List Char)
  | [], cs => some cs
  | _ :: _, [] => none
  | l :: ls, c :: cs => if l = c then dropLit ls cs else none

/-- Backtracking helper for greedy repetition: try consuming `lo + d`
characters first, then `lo + d - 1`, ..., down to `lo` (longest first,
exactly Python's greedy backtracking order). -/
def tryFrom (cs : List Char) (k : List Char → Option Caps) (lo : Nat) : Nat → Option Caps
  | 0 => k (cs.drop lo)
  | d + 1 =>
    match k (cs.drop (lo + d + 1)) with
    | some r => some r
    | none => tryFrom cs k lo d

/-- Continuation-passing backtracking matcher.  `matchRE r cs caps k`
matches `r` against a prefix of `cs`, extending `caps` with captures, and
calls `k` on the remaining input; alternatives are explored in Python's
priority order (greedy repetitions longest first). -/
def matchRE : RE → List Char → Caps → (List Char → Caps → Option Caps) → Option Caps
  | .eps, cs, caps, k => k cs caps
  | .lit s, cs, caps, k =>
    match dropLit s cs with
    | some rest => k rest caps
    | none => none
  | .cls p, cs, caps, k =>
    match cs with
    | [] => none
    | c :: rest => if p c then k rest caps else none
  | .star p, cs, caps, k =>
    tryFrom cs (fun rest => k rest caps) 0 (cs.takeWhile p).length
  | .plus p, cs, caps, k =>
    match (cs.takeWhile p).length with
    | 0 => none
    | m + 1 => tryFrom cs (fun rest => k rest caps) 1 m
  | .grp n r, cs, caps, k =>
    matchRE r cs caps (fun rest caps' =>
      k rest (fun i => if i = n then some (cs.take (cs.length - rest.length)) else caps' i))
  | .seq a b, cs, caps, k =>
    matchRE a cs caps (fun rest caps' => matchRE b rest caps' k)

/-- Sequence a list of regular expressions. -/
def seqs (rs : List RE) : RE := rs.foldr RE.seq RE.eps

/-- Literal from a string. -/
def litS (s : String) : RE := RE.lit s.toList

/-- `\s*`. -/
def sStar : RE := RE.star isPySpace

/-- `\s+`. -/
def sPlus : RE := RE.plus isPySpace

/-- A captured memory token `([\d.]+\S)`, as used for the `mem`,
`mempeak`, `mem2` and `mempeak2` groups. -/
def memTok (n : Nat) : RE := RE.grp n (RE.seq (RE.plus isDigitDot) (RE.cls isPyNonSpace))

/-- `RENDER_LINE_RE`, transcribed from source lines 27-48 with the
`re.VERBOSE` pattern whitespace and comments removed.  Group numbers:
1 frame, 2 mem, 3 mempeak, 4 rem, 5 mem2, 6 mempeak2, 7 rig, 8 layer,
9 tile, 10 tiles, 11 sample, 12 samples. -/
def RENDER_LINE_RE : RE := seqs [
  litS "Fra:", sStar, RE.grp 1 (RE.plus isPyDigit), sStar,
  litS "Mem:", sStar, memTok 2, sStar,
  litS "(", RE.plus isDigitDot, RE.cls isPyNonSpace, sStar, litS ",", sStar,
  litS "Peak", sStar, memTok 3, litS ")",
  sStar, litS "|", sStar,
  litS "Remaining:", sStar, RE.grp 4 (RE.plus isDigitColonDot),
  sStar, litS "|", sStar,
  litS "Mem:", sStar, memTok 5, sStar, litS ",", sStar,
  litS "Peak:", sStar, memTok 6,
  sStar, litS "|", sStar,
  RE.grp 7 (RE.plus isNotCommaPipe), sStar, litS ",", sStar, RE.grp 8 (RE.plus isNotCommaPipe),
  sStar, litS "|", sStar,
  litS "Path Tracing Tile", sPlus,
  RE.grp 9 (RE.plus isPyDigit), litS "/", RE.grp 10 (RE.plus isPyDigit),
  sStar, litS ",", sStar,
  litS "Sample", sPlus,
  RE.grp 11 (RE.plus isPyDigit), litS "/", RE.grp 12 (RE.plus isPyDigit),
  sStar]

/-- Python's `pattern.match(s)`: anchored at the start of the string,
trailing input allowed.  Returns the capture environment on a match. -/
def pyMatch (r : RE) (s : String) : Option Caps :=
  matchRE r s.toList (fun _ => none) (fun _ caps => some caps)

/-- The structured progress record extracted from a matched line by
source lines 295-304 (frame, the four memory groups, remaining time, rig
and layer names, and the tile/sample counters converted with `int()`). -/
structure ProgressRecord where
  frame : Nat
  mem : String
  mempeak : String
  rem : String
  mem2 : String
  mempeak2 : String
  rig : String
  layer : String
  tile : Nat
  tiles : Nat
  sample : Nat
  samples : Nat
deriving DecidableEq, Repr

/-- Python `int()` on a string of decimal digits. -/
def digitsToNat (cs : List Char) : Nat := cs.foldl (fun n c => 10 * n + (c.toNat - 48)) 0

/-- The progress-line parser: `RENDER_LINE_RE.match(line)` followed by the
group extraction of source lines 295-304.  Total: every input yields
either a fully populated `ProgressRecord` or `none`. -/
def parseRenderLine (s : String) : Option ProgressRecord := do
  let caps ← pyMatch RENDER_LINE_RE s
  let frame ← caps 1
  let mem ← caps 2
  let mempeak ← caps 3
  let rem ← caps 4
  let mem2 ← caps 5
  let mempeak2 ← caps 6
  let rig ← caps 7
  let layer ← caps 8
  let tile ← caps 9
  let tiles ← caps 10
  let sample ← caps 11
  let samples ← caps 12
  pure {
    frame := digitsToNat frame
    mem := ⟨mem⟩
    mempeak := ⟨mempeak⟩
    rem := ⟨rem⟩
    mem2 := ⟨mem2⟩
    mempeak2 := ⟨mempeak2⟩
    rig := ⟨rig⟩
    layer := ⟨layer⟩
    tile := digitsToNat tile
    tiles := digitsToNat tiles
    sample := digitsToNat sample
    samples := digitsToNat samples }

/-- Python 2 integer division `a / b`: floor division, raising
`ZeroDivisionError` (modelled as `none`) when `b = 0`. -/
def pyFloorDiv (a b : Int) : Option Int := if b = 0 then none else some (Int.fdiv a b)

/-- The percent-complete expression of source line 302:
`100 * ((tile-1)*samples + (sample-1)) / (tiles*samples)` in Python 2
integer arithmetic. -/
def pyPercent (tile tiles sample samples : Int) : Option Int :=
  pyFloorDiv (100 * ((tile - 1) * samples + (sample - 1))) (tiles * samples)

/-!
Part 3 embeds the control flow of `Renderer.render` (source lines
141-344): the configuration checks, the one-time materialization of the
temporary script file and temporary output file, the diagnostics log, the
unbounded retry loop around the spawn/monitor block, the
`KeyboardInterrupt` re-raise paths, and the success finalization
(`os.remove` of a pre-existing destination, `shutil.copy` of the
temporary artifact, `os.remove` of the diagnostics log, and the `finally`
removal of the script file).

The external world is abstracted by a `RenderConfig` (the relevant
renderer fields and ambient filesystem facts), a `behaviors` function
giving the outcome of the `k`-th spawned process, a fuel bound for the
unbounded loop, and an explicit list of existing file paths.  The model
returns the outcome, the ordered trace of observable events, and the
final filesystem.
-/

/-- `os.path.splitext` (CPython `genericpath._splitext` with `sep = '/'`,
no `altsep`, `extsep = '.'`): the extension is the part from the last dot
of the basename, unless every character of the basename before that dot
is itself a dot. -/
def splitext (p : List Char) : List Char × List Char :=
  let sepIndex : Int :=
    (List.range p.length).foldl (fun acc i => if p.get? i = some '/' then (i : Int) else acc) (-1)
  let dotIndex : Int :=
    (List.range p.length).foldl (fun acc i => if p.get? i = some '.' then (i : Int) else acc) (-1)
  if sepIndex < dotIndex then
    let fname := (p.take dotIndex.toNat).drop (sepIndex + 1).toNat
    if fname.any (fun c => c ≠ '.') then (p.take dotIndex.toNat, p.drop dotIndex.toNat)
    else (p, [])
  else (p, [])

/-- `ext.lower()` applied to the extension of a path (source lines 142-143). -/
def extLower (path : String) : String := ⟨((splitext path.toList).2.map Char.toLower)⟩

inductive RenderFormat where
  | png | jpeg | bmp
deriving DecidableEq, Repr

/-- The extension dispatch of source lines 144-151: `.png`, `.jpg`/`.jpeg`
and `.bmp` map to a render format, anything else raises
`RuntimeError("Path extension needs to be one of png, jpg or bmp")`. -/
def renderFormatOf (path : String) : Option RenderFormat :=
  let ext := extLower path
  if ext = ".png" then some .png
  else if ext = ".jpg" then some .jpeg
  else if ext = ".jpeg" then some .jpeg
  else if ext = ".bmp" then some .bmp
  else none

/-- The configuration failures `Renderer.render` can raise before the
spawn/monitor loop (source lines 151, 155, 164, 166). -/
inductive RenderError where
  | badExtension | missingTexture | cameraPositionNotSet | cameraTargetNotSet
deriving DecidableEq, Repr

/-- One spawned process either exits with a code or the wait is broken by
a `KeyboardInterrupt` delivered to the supervising thread. -/
inductive AttemptBehavior where
  | exits : Int → AttemptBehavior
  | interrupt : AttemptBehavior
deriving DecidableEq

/-- Observable events of one `render` call, in program order.
`materializeScript` is the `NamedTemporaryFile` write of the scene script
(line 232), `createOutfile` the temporary render output file (line 236),
`spawn k` the `k`-th `subprocess.Popen` (line 276), `logFailure` the
traceback print of the blanket handler (line 320), `sleep s` the fixed
backoff (line 322), `killProcess` an explicit `terminate`/`kill` of the
child (the source contains none), `removeFile`/`copyFile` the
`os.remove`/`shutil.copy` filesystem calls. -/
inductive REvent where
  | materializeScript : REvent
  | createOutfile : REvent
  | spawn : Nat → REvent
  | logFailure : REvent
  | sleep : Nat → REvent
  | killProcess : REvent
  | removeFile : String → REvent
  | copyFile : String → String → REvent
deriving DecidableEq, Repr

/-- Outcome of one `render` call as seen by the caller. -/
inductive RenderOutcome where
  | success : RenderOutcome
  | configError : RenderError → RenderOutcome
  | cancelled : RenderOutcome
  | outOfFuel : RenderOutcome
deriving DecidableEq, Repr

/-- Result of the `while True` retry loop of source lines 269-322. -/
inductive LoopResult where
  | done : List REvent → LoopResult
  | interrupted : List REvent → LoopResult
  | fuelOut : List REvent → LoopResult

/-- The retry loop: spawn attempt `k`; an interrupt re-raises immediately
(lines 316-317); exit code `0` breaks (lines 313-314); a non-zero exit
code raises `CalledProcessError` (line 311), which the blanket handler
turns into a traceback print, a fixed 1-second sleep and another pass of
the loop with the same arguments (lines 318-322).  `fuel` bounds the
number of attempts the model unrolls. -/
def renderLoop (behaviors : Nat → AttemptBehavior) : Nat → Nat → LoopResult
  | _, 0 => .fuelOut []
  | k, fuel + 1 =>
    match behaviors k with
    | .interrupt => .interrupted [.spawn k]
    | .exits c =>
      if c = 0 then .done [.spawn k]
      else
        match renderLoop behaviors (k + 1) fuel with
        | .done t => .done (.spawn k :: .logFailure :: .sleep 1 :: t)
        | .interrupted t => .interrupted (.spawn k :: .logFailure :: .sleep 1 :: t)
        | .fuelOut t => .fuelOut (.spawn k :: .logFailure :: .sleep 1 :: t)

/-- The renderer state and ambient facts `render` consults before the
loop: the requested output path, whether `textures/ireye-<iris>.png`
exists (line 154), whether the camera position/target fields are set
(lines 163-166), the `background` argument, and `self.render_samples`. -/
structure RenderConfig where
  path : String
  irisTextureExists : Bool
  cameraPositionSet : Bool
  cameraTargetSet : Bool
  background : Bool
  renderSamples : Nat

/-- Model name for the `NamedTemporaryFile` scene-script file of line 232. -/
def scriptFileName : String := "tmp_script.py"

/-- Model name for the temporary render output file of line 236. -/
def outFileName : String := "tmp_out0000"

/-- The fixed diagnostics log path of lines 253 and 331. -/
def errLogName : String := "blender_err.log"

def fsHas (fs : List String) (p : String) : Bool := decide (p ∈ fs)

def fsAdd (fs : List String) (p : String) : List String := if fsHas fs p then fs else p :: fs

def fsRemove (fs : List String) (p : String) : List String := fs.filter (fun q => q ≠ p)

/-- `Renderer.render` (source lines 141-344), restricted to the
observable control flow: extension dispatch, texture and camera checks,
one-time creation of the script file, the temporary output file and the
diagnostics log, the retry loop, and finalization.  Returns the outcome,
the event trace and the final filesystem. -/
def render (cfg : RenderConfig) (behaviors : Nat → AttemptBehavior) (fuel : Nat)
    (fs : List String) : RenderOutcome × List REvent × List String :=
  if (renderFormatOf cfg.path).isNone then (.configError .badExtension, [], fs)
  else if cfg.irisTextureExists = false then (.configError .missingTexture, [], fs)
  else if cfg.cameraPositionSet = false then (.configError .cameraPositionNotSet, [], fs)
  else if cfg.cameraTargetSet = false then (.configError .cameraTargetNotSet, [], fs)
  else
    let fs3 := fsAdd (fsAdd (fsAdd fs scriptFileName) outFileName) errLogName
    match renderLoop behaviors 0 fuel with
    | .interrupted t =>
      (.cancelled,
       REvent.materializeScript :: REvent.createOutfile :: t ++ [.removeFile scriptFileName],
       fsRemove fs3 scriptFileName)
    | .fuelOut t =>
      (.outOfFuel, REvent.materializeScript :: REvent.createOutfile :: t, fs3)
    | .done t =>
      if cfg.background && decide (0 < cfg.renderSamples) then
        if fsHas fs3 cfg.path then
          (.success,
           REvent.materializeScript :: REvent.createOutfile :: t ++
             [.removeFile cfg.path, .copyFile outFileName cfg.path,
              .removeFile errLogName, .removeFile scriptFileName],
           fsRemove (fsRemove (fsAdd (fsRemove fs3 cfg.path) cfg.path) errLogName) scriptFileName)
        else
          (.success,
           REvent.materializeScript :: REvent.createOutfile :: t ++
             [.copyFile outFileName cfg.path, .removeFile errLogName,
              .removeFile scriptFileName],
           fsRemove (fsRemove (fsAdd fs3 cfg.path) errLogName) scriptFileName)
      else
        (.success,
         REvent.materializeScript :: REvent.createOutfile :: t ++
           [.removeFile errLogName, .removeFile scriptFileName],
         fsRemove (fsRemove fs3 errLogName) scriptFileName)

/-- `true` exactly on `spawn` events. -/
def isSpawn : REvent → Bool
  | .spawn _ => true
  | _ => false

/-- Number of process spawns in a trace. -/
def spawnCount (t : List REvent) : Nat := (t.filter isSpawn).length

/-!
Part 4: the class-wide `_renderer_active` flag (source lines 104-113).
`Renderer.__init__` sets `Renderer._renderer_active = True` and
`Renderer.__exit__` sets `Renderer._renderer_active = False`; the flag is
read nowhere else in the repository.  Each is modelled as a state
transformer on the flag.
-/

/-- Number of occurrences of an event in a trace. -/
def countEv (e : REvent) (t : List REvent) : Nat := (t.filter (fun x => decide (x = e))).length

/-- The trace produced by `n` consecutive failing attempts starting at
attempt index `k`: each contributes a spawn, a traceback log and a fixed
1-second sleep. -/
def failTrace : Nat → Nat → List REvent
  | _, 0 => []
  | k, n + 1 => .spawn k :: .logFailure :: .sleep 1 :: failTrace (k + 1) n

theorem countEv_nil (e : REvent) : countEv e [] = 0 := rfl

theorem countEv_cons (e x : REvent) (t : List REvent) :
    countEv e (x :: t) = (if x = e then 1 else 0) + countEv e t := by
  by_cases h : x = e <;> simp [countEv, List.filter_cons, h, Nat.add_comm]

theorem countEv_append (e : REvent) (a b : List REvent) :
    countEv e (a ++ b) = countEv e a + countEv e b := by
  simp [countEv, List.filter_append]

theorem spawnCount_nil : spawnCount [] = 0 := rfl

theorem spawnCount_cons (x : REvent) (t : List REvent) :
    spawnCount (x :: t) = (if isSpawn x then 1 else 0) + spawnCount t := by
  by_cases h : isSpawn x <;> simp [spawnCount, List.filter_cons, h, Nat.add_comm]

theorem spawnCount_append (a b : List REvent) :
    spawnCount (a ++ b) = spawnCount a + spawnCount b := by
  simp [spawnCount, List.filter_append]

theorem failTrace_spawnCount : ∀ n k, spawnCount (failTrace k n) = n := by
  intro n
  induction n with
  | zero => intro k; rfl
  | succ n ih => intro k; simp [failTrace, spawnCount_cons, isSpawn, ih, Nat.add_comm]

theorem failTrace_countEv_sleep : ∀ n k, countEv (REvent.sleep 1) (failTrace k n) = n := by
  intro n
  induction n with
  | zero => intro k; rfl
  | succ n ih => intro k; simp [failTrace, countEv_cons, ih, Nat.add_comm]

theorem failTrace_countEv_mat : ∀ n k, countEv REvent.materializeScript (failTrace k n) = 0 := by
  intro n
  induction n with
  | zero => intro k; rfl
  | succ n ih => intro k; simp [failTrace, countEv_cons, ih]

theorem failTrace_countEv_out : ∀ n k, countEv REvent.createOutfile (failTrace k n) = 0 := by
  intro n
  induction n with
  | zero => intro k; rfl
  | succ n ih => intro k; simp [failTrace, countEv_cons, ih]

theorem failTrace_countEv_kill : ∀ n k, countEv REvent.killProcess (failTrace k n) = 0 := by
  intro n
  induction n with
  | zero => intro k; rfl
  | succ n ih => intro k; simp [failTrace, countEv_cons, ih]

/-- Characterization of the retry loop: after `n` failing attempts
starting at index `k`, attempt `k + n` either breaks the loop (exit 0) or
re-raises a `KeyboardInterrupt`; the produced trace is the failure trace
followed by the final spawn. -/
theorem renderLoop_spec (behaviors : Nat → AttemptBehavior) :
    ∀ n k fuel, (∀ i, i < n → ∃ c, behaviors (k + i) = .exits c ∧ c ≠ 0) → n < fuel →
      (behaviors (k + n) = .exits 0 →
        renderLoop behaviors k fuel = .done (failTrace k n ++ [.spawn (k + n)])) ∧
      (behaviors (k + n) = .interrupt →
        renderLoop behaviors k fuel = .interrupted (failTrace k n ++ [.spawn (k + n)])) := by
  intro n
  induction n with
  | zero =>
    intro k fuel _ hfuel
    obtain ⟨f, rfl⟩ : ∃ f, fuel = f + 1 := ⟨fuel - 1, by omega⟩
    constructor
    · intro h0
      rw [Nat.add_zero] at h0
      simp [renderLoop, h0, failTrace]
    · intro h0
      rw [Nat.add_zero] at h0
      simp [renderLoop, h0, failTrace]
  | succ n ih =>
    intro k fuel hfail hfuel
    obtain ⟨f, rfl⟩ : ∃ f, fuel = f + 1 := ⟨fuel - 1, by omega⟩
    obtain ⟨c, hc, hcne⟩ := hfail 0 (Nat.succ_pos n)
    rw [Nat.add_zero] at hc
    have hshift : ∀ i, i < n → ∃ c', behaviors (k + 1 + i) = .exits c' ∧ c' ≠ 0 := by
      intro i hi
      obtain ⟨c', hc', hne'⟩ := hfail (i + 1) (by omega)
      exact ⟨c', by rw [show k + 1 + i = k + (i + 1) by omega]; exact hc', hne'⟩
    have ihk := ih (k + 1) f hshift (by omega)
    have harith : k + 1 + n = k + (n + 1) := by omega
    constructor
    · intro h0
      have hdone := ihk.1 (by rw [harith]; exact h0)
      simp [renderLoop, hc, hcne, hdone, failTrace, harith]
    · intro h0
      have hint := ihk.2 (by rw [harith]; exact h0)
      simp [renderLoop, hc, hcne, hint, failTrace, harith]

theorem fsHas_fsAdd_self (fs : List String) (p : String) : fsHas (fsAdd fs p) p = true := by
  by_cases h : fsHas fs p <;> simp_all [fsHas, fsAdd]

theorem fsHas_fsAdd_ne (fs : List String) (p q : String) (h : q ≠ p) :
    fsHas (fsAdd fs p) q = fsHas fs q := by
  by_cases h' : fsHas fs p <;> simp_all [fsHas, fsAdd]

theorem fsHas_fsRemove_self (fs : List String) (p : String) : fsHas (fsRemove fs p) p = false := by
  simp [fsHas, fsRemove, List.mem_filter]

theorem fsHas_fsRemove_ne (fs : List String) (p q : String) (h : q ≠ p) :
    fsHas (fsRemove fs p) q = fsHas fs q := by
  simp [fsHas, fsRemove, List.mem_filter, h]

/-- If the lower-cased extension is none of the four accepted ones the
extension dispatch fails. -/
theorem renderFormatOf_eq_none (path : String)
    (h : extLower path ∉ [".png", ".jpg", ".jpeg", ".bmp"]) :
    renderFormatOf path = none := by
  simp only [List.mem_cons, List.not_mem_nil, or_false, not_or] at h
  obtain ⟨h1, h2, h3, h4⟩ := h
  simp [renderFormatOf, h1, h2, h3, h4]

/-- The effect of `Renderer.__init__` on the class-wide flag: set it to
`True` regardless of its current value. -/
def rendererInit (_active : Bool) : Bool := true

/-- `Renderer.__exit__`: set the class-wide flag to `False` regardless of
its current value. -/
def rendererExit (_active : Bool) : Bool := false

/-!
Part 5: the claims.
-/

/-- C3: the progress-line parser is total — for every input string it
yields either a fully-populated `ProgressRecord` (all fields of the
structure are mandatory) or `none`; being a total Lean function it cannot
raise on malformed input, and a non-match is an ordinary `none` value. -/
theorem parseRenderLine_total (s : String) :
    parseRenderLine s = none ∨ ∃ r : ProgressRecord, parseRenderLine s = some r := by
  cases h : parseRenderLine s with
  | none => exact Or.inl rfl
  | some r => exact Or.inr ⟨r, rfl⟩

/-- C2 counterexample: the exact example line of the spec (which omits
the second `Mem: ..., Peak: ...` segment that `RENDER_LINE_RE` demands
between the `Remaining:` field and the rig/layer pair) does NOT match the
progress-line grammar: the parser rejects it. -/
def specExampleLine : String :=
  "Fra:1 Mem:10.5M (..., Peak 12.0M) | Remaining: 00:01.23 | Render, View | Path Tracing Tile 3/10, Sample 5/20"

set_option maxRecDepth 400000 in
theorem spec_example_line_rejected : parseRenderLine specExampleLine = none := by decide

/-- The spec's example line with the second memory segment
`Mem: ..., Peak: ...` (required by `RENDER_LINE_RE`) inserted. -/
def fullProgressLine : String :=
  "Fra:1 Mem:10.5M (..., Peak 12.0M) | Remaining: 00:01.23 | Mem:10.5M, Peak:12.0M | Render, View | Path Tracing Tile 3/10, Sample 5/20"

set_option maxRecDepth 400000 in
/-- C2 amended: a line in the actual grammar (the example line extended
with the second `Mem:/Peak:` segment the regex requires) parses to
tile 3, totalTiles 10, sample 5, totalSamples 20, and the displayed
percent of source line 302 evaluates to exactly 22. -/
theorem full_progress_line_parses_percent_22 :
    ∃ r : ProgressRecord, parseRenderLine fullProgressLine = some r ∧
      r.tile = 3 ∧ r.tiles = 10 ∧ r.sample = 5 ∧ r.samples = 20 ∧
      pyPercent (r.tile : Int) (r.tiles : Int) (r.sample : Int) (r.samples : Int) = some 22 :=
  ⟨⟨1, "10.5M", "12.0M", "00:01.23", "10.5M", "12.0M", "Render", "View ", 3, 10, 5, 20⟩,
    by decide, rfl, rfl, rfl, rfl, by decide⟩

/-- A syntactically valid progress line whose totals are both zero. -/
def zeroTotalsLine : String :=
  "Fra:1 Mem:10.5M (..., Peak 12.0M) | Remaining: 00:01.23 | Mem:10.5M, Peak:12.0M | Render, View | Path Tracing Tile 1/0, Sample 1/0"

set_option maxRecDepth 400000 in
/-- C4: `RENDER_LINE_RE` accepts lines with `totalTiles = totalSamples = 0`
(`\d+` matches `0`), and on such a matched line the percent expression of
source line 302 divides by `tiles*samples = 0`: in Python 2 this raises
`ZeroDivisionError` (modelled by `none`) instead of producing 0%. -/
theorem zero_totals_percent_raises :
    ∃ r : ProgressRecord, parseRenderLine zeroTotalsLine = some r ∧
      r.tiles * r.samples = 0 ∧
      pyPercent (r.tile : Int) (r.tiles : Int) (r.sample : Int) (r.samples : Int) = none :=
  ⟨⟨1, "10.5M", "12.0M", "00:01.23", "10.5M", "12.0M", "Render", "View ", 1, 0, 1, 0⟩,
    by decide, rfl, by decide⟩

/-- C5: for valid tile/sample coordinates the percent value of source
line 302 is defined, lies in `[0, 100)`, and is monotonically
non-decreasing in raster order (tile-major, sample-minor). -/
theorem pyPercent_range_and_mono (tiles samples t1 s1 t2 s2 : Int)
    (htiles : 0 < tiles) (hsamples : 0 < samples)
    (ht1l : 1 ≤ t1) (ht1u : t1 ≤ tiles) (hs1l : 1 ≤ s1) (hs1u : s1 ≤ samples)
    (ht2l : 1 ≤ t2) (ht2u : t2 ≤ tiles) (hs2l : 1 ≤ s2) (hs2u : s2 ≤ samples)
    (horder : t1 < t2 ∨ (t1 = t2 ∧ s1 ≤ s2)) :
    ∃ p1 p2, pyPercent t1 tiles s1 samples = some p1 ∧
      pyPercent t2 tiles s2 samples = some p2 ∧
      0 ≤ p1 ∧ p1 < 100 ∧ 0 ≤ p2 ∧ p2 < 100 ∧ p1 ≤ p2 := by
  have hb : 0 < tiles * samples := mul_pos htiles hsamples
  have hbne : tiles * samples ≠ 0 := ne_of_gt hb
  have hfd : ∀ a : Int, Int.fdiv a (tiles * samples) = a / (tiles * samples) := fun a =>
    Int.fdiv_eq_ediv a (le_of_lt hb)
  have hnum : ∀ t s : Int, 1 ≤ t → t ≤ tiles → 1 ≤ s → s ≤ samples →
      0 ≤ 100 * ((t - 1) * samples + (s - 1)) ∧
      100 * ((t - 1) * samples + (s - 1)) < 100 * (tiles * samples) := by
    intro t s htl htu hsl hsu
    have h1 : 0 ≤ (t - 1) * samples := mul_nonneg (by omega) (by omega)
    have h2 : (t - 1) * samples ≤ (tiles - 1) * samples :=
      mul_le_mul_of_nonneg_right (by omega) (by omega)
    have h3 : (tiles - 1) * samples = tiles * samples - samples := by ring
    constructor
    · nlinarith
    · nlinarith
  obtain ⟨hA1, hB1⟩ := hnum t1 s1 ht1l ht1u hs1l hs1u
  obtain ⟨hA2, hB2⟩ := hnum t2 s2 ht2l ht2u hs2l hs2u
  have hle : 100 * ((t1 - 1) * samples + (s1 - 1)) ≤ 100 * ((t2 - 1) * samples + (s2 - 1)) := by
    rcases horder with hlt | ⟨heq, hs⟩
    · have h2 : (t1 - 1) * samples ≤ (t2 - 2) * samples :=
        mul_le_mul_of_nonneg_right (by omega) (by omega)
      have h3 : (t2 - 1) * samples = (t2 - 2) * samples + samples := by ring
      nlinarith
    · subst heq
      nlinarith
  refine ⟨100 * ((t1 - 1) * samples + (s1 - 1)) / (tiles * samples),
    100 * ((t2 - 1) * samples + (s2 - 1)) / (tiles * samples), ?_, ?_, ?_, ?_, ?_, ?_, ?_⟩
  · simp [pyPercent, pyFloorDiv, hbne, hfd]
  · simp [pyPercent, pyFloorDiv, hbne, hfd]
  · exact Int.ediv_nonneg hA1 (le_of_lt hb)
  · exact Int.ediv_lt_of_lt_mul hb (by linarith)
  · exact Int.ediv_nonneg hA2 (le_of_lt hb)
  · exact Int.ediv_lt_of_lt_mul hb (by linarith)
  · exact Int.ediv_le_ediv hb hle

/-- Witness for C5 at tiles 10, samples 20, positions (3,5) and (4,2). -/
theorem pyPercent_range_and_mono_witness :
    ∃ p1 p2, pyPercent 3 10 5 20 = some p1 ∧ pyPercent 4 10 2 20 = some p2 ∧
      0 ≤ p1 ∧ p1 < 100 ∧ 0 ≤ p2 ∧ p2 < 100 ∧ p1 ≤ p2 :=
  pyPercent_range_and_mono 10 20 3 5 4 2 (by decide) (by decide) (by decide) (by decide)
    (by decide) (by decide) (by decide) (by decide) (by decide) (by decide)
    (Or.inl (by decide))

/-- A syntactically valid progress line with `tile = 0`. -/
def tileZeroLine : String :=
  "Fra:1 Mem:10.5M (..., Peak 12.0M) | Remaining: 00:01.23 | Mem:10.5M, Peak:12.0M | Render, View | Path Tracing Tile 0/10, Sample 5/20"

set_option maxRecDepth 400000 in
/-- C6 counterexample: the parser accepts a line with `tile = 0`, i.e. it
produces a `ProgressRecord` violating `1 ≤ tile ≤ totalTiles`, so the
claimed invariant does not hold for every parsed record. -/
theorem tile_zero_record_accepted :
    ∃ r : ProgressRecord, parseRenderLine tileZeroLine = some r ∧
      r.tile = 0 ∧ r.tiles = 10 ∧ ¬(1 ≤ r.tile) :=
  ⟨⟨1, "10.5M", "12.0M", "00:01.23", "10.5M", "12.0M", "Render", "View ", 0, 10, 5, 20⟩,
    by decide, rfl, rfl, by decide⟩

/-- A syntactically valid progress line with `tile > totalTiles` and
`sample = 0`. -/
def outOfBoundsLine : String :=
  "Fra:1 Mem:10.5M (..., Peak 12.0M) | Remaining: 00:01.23 | Mem:10.5M, Peak:12.0M | Render, View | Path Tracing Tile 11/10, Sample 0/20"

set_option maxRecDepth 400000 in
/-- C6 amended: the parser constrains the tile/sample fields only to be
decimal numerals; it enforces no bounds between them, accepting records
with `tile > totalTiles` and `sample < 1`. -/
theorem out_of_bounds_records_accepted :
    ∃ r : ProgressRecord, parseRenderLine outOfBoundsLine = some r ∧
      r.tile = 11 ∧ r.tiles = 10 ∧ r.sample = 0 ∧ r.samples = 20 ∧
      ¬(r.tile ≤ r.tiles) ∧ ¬(1 ≤ r.sample) :=
  ⟨⟨1, "10.5M", "12.0M", "00:01.23", "10.5M", "12.0M", "Render", "View ", 11, 10, 0, 20⟩,
    by decide, rfl, rfl, rfl, rfl, by decide, by decide⟩

/-- C7: a bad output extension (case-insensitively not one of
`.png`/`.jpg`/`.jpeg`/`.bmp`) or a missing iris texture makes `render`
fail with a configuration error, with an empty event trace — no process
is spawned, no backoff sleep occurs, no retry happens, and the
filesystem is untouched. -/
theorem render_config_error_immediate (cfg : RenderConfig) (behaviors : Nat → AttemptBehavior)
    (fuel : Nat) (fs : List String) :
    (extLower cfg.path ∉ [".png", ".jpg", ".jpeg", ".bmp"] →
      render cfg behaviors fuel fs = (.configError .badExtension, [], fs)) ∧
    (cfg.irisTextureExists = false →
      ∃ e, render cfg behaviors fuel fs = (.configError e, [], fs)) := by
  constructor
  · intro h
    have h0 := renderFormatOf_eq_none cfg.path h
    simp [render, h0]
  · intro h
    cases h0 : renderFormatOf cfg.path with
    | none => exact ⟨.badExtension, by simp [render, h0]⟩
    | some fmt => exact ⟨.missingTexture, by simp [render, h0, h]⟩

/-- Witness for C7: a `.txt` output path with a missing texture fails
immediately with the extension configuration error and an empty trace. -/
theorem render_config_error_immediate_witness :
    render ⟨"out.txt", false, true, true, true, 20⟩ (fun _ => .exits 0) 1 [] =
      (.configError .badExtension, [], []) :=
  (render_config_error_immediate ⟨"out.txt", false, true, true, true, 20⟩
    (fun _ => .exits 0) 1 []).1 (by decide)

/-- C10: the one-active-renderer guard is write-only — construction sets
the class-wide flag to `True` from any prior state (so a second
construction while one is active is not prevented), context exit sets it
to `False` from any prior state, neither transition consults the flag
(their results are independent of it), and exiting one instance marks the
renderer inactive even after a later construction. -/
theorem renderer_active_flag_unconditional (s s' : Bool) :
    rendererInit s = true ∧ rendererExit s = false ∧
    rendererInit s = rendererInit s' ∧ rendererExit s = rendererExit s' ∧
    rendererExit (rendererInit (rendererInit false)) = false :=
  ⟨rfl, rfl, rfl, rfl, rfl⟩

/-- C1 amended: every attempt whose process exits non-zero is treated as
transient — the failure is logged, a fixed 1-second backoff is slept, and
the spawn/monitor step is re-run without reporting to the caller, for any
number `n` of consecutive failures — but the retry reuses the one scene
script and the one temporary output path materialized before the first
attempt (exactly one materialization and one output-file creation event
in the whole run), rather than re-materializing them per attempt. -/
theorem render_retries_reuse_temp_files (cfg : RenderConfig) (behaviors : Nat → AttemptBehavior)
    (fuel : Nat) (fs : List String) (fmt : RenderFormat) (n : Nat)
    (hfmt : renderFormatOf cfg.path = some fmt)
    (htex : cfg.irisTextureExists = true)
    (hcp : cfg.cameraPositionSet = true)
    (hct : cfg.cameraTargetSet = true)
    (hfail : ∀ i, i < n → ∃ c, behaviors i = .exits c ∧ c ≠ 0)
    (hsucc : behaviors n = .exits 0)
    (hfuel : n < fuel) :
    (render cfg behaviors fuel fs).1 = .success ∧
    spawnCount (render cfg behaviors fuel fs).2.1 = n + 1 ∧
    countEv (REvent.sleep 1) (render cfg behaviors fuel fs).2.1 = n ∧
    countEv REvent.materializeScript (render cfg behaviors fuel fs).2.1 = 1 ∧
    countEv REvent.createOutfile (render cfg behaviors fuel fs).2.1 = 1 := by
  have hL := (renderLoop_spec behaviors n 0 fuel
      (by intro i hi; simpa using hfail i hi) hfuel).1 (by simpa using hsucc)
  rw [Nat.zero_add] at hL
  cases hb : cfg.background && decide (0 < cfg.renderSamples) with
  | false =>
    simp [render, hfmt, htex, hcp, hct, hL, hb, spawnCount_cons, spawnCount_append,
      spawnCount_nil, countEv_cons, countEv_append, countEv_nil, isSpawn,
      failTrace_spawnCount, failTrace_countEv_sleep, failTrace_countEv_mat,
      failTrace_countEv_out]
  | true =>
    cases hfs : fsHas (fsAdd (fsAdd (fsAdd fs scriptFileName) outFileName) errLogName) cfg.path with
    | false =>
      simp [render, hfmt, htex, hcp, hct, hL, hb, hfs, spawnCount_cons, spawnCount_append,
        spawnCount_nil, countEv_cons, countEv_append, countEv_nil, isSpawn,
        failTrace_spawnCount, failTrace_countEv_sleep, failTrace_countEv_mat,
        failTrace_countEv_out]
    | true =>
      simp [render, hfmt, htex, hcp, hct, hL, hb, hfs, spawnCount_cons, spawnCount_append,
        spawnCount_nil, countEv_cons, countEv_append, countEv_nil, isSpawn,
        failTrace_spawnCount, failTrace_countEv_sleep, failTrace_countEv_mat,
        failTrace_countEv_out]

/-- Witness for C1 amended: one failing attempt followed by a clean exit
succeeds with two spawns, one backoff sleep, and a single script
materialization and output-file creation. -/
theorem render_retries_reuse_temp_files_witness :
    (render ⟨"out.png", true, true, true, true, 20⟩
        (fun k => if k = 0 then .exits 1 else .exits 0) 2 []).1 = .success ∧
    spawnCount (render ⟨"out.png", true, true, true, true, 20⟩
        (fun k => if k = 0 then .exits 1 else .exits 0) 2 []).2.1 = 1 + 1 ∧
    countEv (REvent.sleep 1) (render ⟨"out.png", true, true, true, true, 20⟩
        (fun k => if k = 0 then .exits 1 else .exits 0) 2 []).2.1 = 1 ∧
    countEv REvent.materializeScript (render ⟨"out.png", true, true, true, true, 20⟩
        (fun k => if k = 0 then .exits 1 else .exits 0) 2 []).2.1 = 1 ∧
    countEv REvent.createOutfile (render ⟨"out.png", true, true, true, true, 20⟩
        (fun k => if k = 0 then .exits 1 else .exits 0) 2 []).2.1 = 1 :=
  render_retries_reuse_temp_files ⟨"out.png", true, true, true, true, 20⟩
    (fun k => if k = 0 then .exits 1 else .exits 0) 2 [] .png 1
    (by decide) rfl rfl rfl
    (fun i hi => ⟨1, by have h : i = 0 := Nat.lt_one_iff.mp hi; subst h; rfl, by decide⟩)
    (by decide) (by decide)

/-- C1 counterexample: with one non-zero exit followed by success, the
run has two spawns and one 1-second sleep but only ONE script
materialization and ONE temporary-output creation — the re-spawned
attempt did not re-materialize the script to a fresh temporary file nor
choose a fresh temporary output path, refuting the claim that each
failure restarts the attempt from step 2. -/
theorem retry_single_materialization_counterexample :
    (render ⟨"out.png", true, true, true, true, 20⟩
        (fun k => if k = 0 then .exits 1 else .exits 0) 2 []).1 = .success ∧
    spawnCount ((render ⟨"out.png", true, true, true, true, 20⟩
        (fun k => if k = 0 then .exits 1 else .exits 0) 2 []).2.1) = 2 ∧
    countEv (REvent.sleep 1) ((render ⟨"out.png", true, true, true, true, 20⟩
        (fun k => if k = 0 then .exits 1 else .exits 0) 2 []).2.1) = 1 ∧
    countEv REvent.materializeScript ((render ⟨"out.png", true, true, true, true, 20⟩
        (fun k => if k = 0 then .exits 1 else .exits 0) 2 []).2.1) = 1 ∧
    countEv REvent.createOutfile ((render ⟨"out.png", true, true, true, true, 20⟩
        (fun k => if k = 0 then .exits 1 else .exits 0) 2 []).2.1) = 1 ∧
    ¬(countEv REvent.materializeScript ((render ⟨"out.png", true, true, true, true, 20⟩
        (fun k => if k = 0 then .exits 1 else .exits 0) 2 []).2.1) =
      spawnCount ((render ⟨"out.png", true, true, true, true, 20⟩
        (fun k => if k = 0 then .exits 1 else .exits 0) 2 []).2.1)) := by
  decide

/-- C8 amended: after any number of failed attempts, a keyboard interrupt
delivered during the running attempt propagates to the caller as
cancellation, is never caught by the retry loop (exactly `n` backoff
sleeps for `n` prior failures — none after the interrupt — and exactly
`n + 1` spawns), but the supervisor performs no explicit termination of
the running external process (no kill event occurs anywhere). -/
theorem render_interrupt_propagates_without_kill (cfg : RenderConfig)
    (behaviors : Nat → AttemptBehavior) (fuel : Nat) (fs : List String) (fmt : RenderFormat)
    (n : Nat)
    (hfmt : renderFormatOf cfg.path = some fmt)
    (htex : cfg.irisTextureExists = true)
    (hcp : cfg.cameraPositionSet = true)
    (hct : cfg.cameraTargetSet = true)
    (hfail : ∀ i, i < n → ∃ c, behaviors i = .exits c ∧ c ≠ 0)
    (hint : behaviors n = .interrupt)
    (hfuel : n < fuel) :
    (render cfg behaviors fuel fs).1 = .cancelled ∧
    spawnCount (render cfg behaviors fuel fs).2.1 = n + 1 ∧
    countEv (REvent.sleep 1) (render cfg behaviors fuel fs).2.1 = n ∧
    countEv REvent.killProcess (render cfg behaviors fuel fs).2.1 = 0 := by
  have hL := (renderLoop_spec behaviors n 0 fuel
      (by intro i hi; simpa using hfail i hi) hfuel).2 (by simpa using hint)
  rw [Nat.zero_add] at hL
  simp [render, hfmt, htex, hcp, hct, hL, spawnCount_cons, spawnCount_append, spawnCount_nil,
    countEv_cons, countEv_append, countEv_nil, isSpawn, failTrace_spawnCount,
    failTrace_countEv_sleep, failTrace_countEv_kill]

/-- Witness for C8 amended: one failing attempt, then an interrupt during
the second attempt — cancelled, two spawns, one sleep, no kill. -/
theorem render_interrupt_propagates_without_kill_witness :
    (render ⟨"out.png", true, true, true, true, 20⟩
        (fun k => if k = 0 then .exits 1 else .interrupt) 2 []).1 = .cancelled ∧
    spawnCount (render ⟨"out.png", true, true, true, true, 20⟩
        (fun k => if k = 0 then .exits 1 else .interrupt) 2 []).2.1 = 1 + 1 ∧
    countEv (REvent.sleep 1) (render ⟨"out.png", true, true, true, true, 20⟩
        (fun k => if k = 0 then .exits 1 else .interrupt) 2 []).2.1 = 1 ∧
    countEv REvent.killProcess (render ⟨"out.png", true, true, true, true, 20⟩
        (fun k => if k = 0 then .exits 1 else .interrupt) 2 []).2.1 = 0 :=
  render_interrupt_propagates_without_kill ⟨"out.png", true, true, true, true, 20⟩
    (fun k => if k = 0 then .exits 1 else .interrupt) 2 [] .png 1
    (by decide) rfl rfl rfl
    (fun i hi => ⟨1, by have h : i = 0 := Nat.lt_one_iff.mp hi; subst h; rfl, by decide⟩)
    (by decide) (by decide)

/-- C8 counterexample: an interrupt during the first attempt yields
cancellation, but the trace contains NO kill event — the code never
explicitly terminates the running external process, refuting the claim
that cancellation causes immediate termination of that process. -/
theorem interrupt_no_kill_counterexample :
    (render ⟨"out.png", true, true, true, true, 20⟩ (fun _ => .interrupt) 1 []).1 =
      .cancelled ∧
    countEv REvent.killProcess
      (render ⟨"out.png", true, true, true, true, 20⟩ (fun _ => .interrupt) 1 []).2.1 = 0 := by
  decide

/-- C9 amended: with a clean first-attempt exit, background mode and a
positive sample count, the run succeeds; any pre-existing file at the
requested output path is removed first, then the temporary artifact is
COPIED (not moved) to the requested path; the diagnostics log is deleted
and the requested path exists afterwards — but the temporary artifact is
left in place. -/
theorem render_success_places_artifact (cfg : RenderConfig) (behaviors : Nat → AttemptBehavior)
    (fuel : Nat) (fs : List String) (fmt : RenderFormat)
    (hfmt : renderFormatOf cfg.path = some fmt)
    (htex : cfg.irisTextureExists = true)
    (hcp : cfg.cameraPositionSet = true)
    (hct : cfg.cameraTargetSet = true)
    (hbg : cfg.background = true)
    (hsam : 0 < cfg.renderSamples)
    (hb0 : behaviors 0 = .exits 0)
    (hfuel : 0 < fuel)
    (hp1 : cfg.path ≠ scriptFileName)
    (hp2 : cfg.path ≠ outFileName)
    (hp3 : cfg.path ≠ errLogName) :
    (render cfg behaviors fuel fs).1 = .success ∧
    (render cfg behaviors fuel fs).2.1 =
      [REvent.materializeScript, .createOutfile, .spawn 0] ++
        (if fsHas fs cfg.path then [REvent.removeFile cfg.path] else []) ++
        [REvent.copyFile outFileName cfg.path, .removeFile errLogName,
         .removeFile scriptFileName] ∧
    fsHas (render cfg behaviors fuel fs).2.2 cfg.path = true ∧
    fsHas (render cfg behaviors fuel fs).2.2 errLogName = false ∧
    fsHas (render cfg behaviors fuel fs).2.2 outFileName = true := by
  have hL := (renderLoop_spec behaviors 0 0 fuel
      (by intro i hi; exact absurd hi (Nat.not_lt_zero i)) hfuel).1 (by simpa using hb0)
  simp only [failTrace, List.nil_append, Nat.zero_add] at hL
  have hq1 : errLogName ≠ scriptFileName := by decide
  have hq2 : outFileName ≠ scriptFileName := by decide
  have hq3 : outFileName ≠ errLogName := by decide
  have hp2' : outFileName ≠ cfg.path := fun h => hp2 h.symm
  have hfs3 : fsHas (fsAdd (fsAdd (fsAdd fs scriptFileName) outFileName) errLogName) cfg.path
      = fsHas fs cfg.path := by
    rw [fsHas_fsAdd_ne _ _ _ hp3, fsHas_fsAdd_ne _ _ _ hp2, fsHas_fsAdd_ne _ _ _ hp1]
  have hcond : (cfg.background && decide (0 < cfg.renderSamples)) = true := by
    rw [hbg]; simp [hsam]
  cases hfs : fsHas fs cfg.path with
  | false =>
    refine ⟨?_, ?_, ?_, ?_, ?_⟩ <;>
      simp [render, hfmt, htex, hcp, hct, hL, hcond, hfs3, hfs,
        fsHas_fsAdd_self, fsHas_fsAdd_ne, fsHas_fsRemove_self, fsHas_fsRemove_ne,
        hp1, hp2, hp3, hp2', hq1, hq2, hq3]
  | true =>
    refine ⟨?_, ?_, ?_, ?_, ?_⟩ <;>
      simp [render, hfmt, htex, hcp, hct, hL, hcond, hfs3, hfs,
        fsHas_fsAdd_self, fsHas_fsAdd_ne, fsHas_fsRemove_self, fsHas_fsRemove_ne,
        hp1, hp2, hp3, hp2', hq1, hq2, hq3]

/-- Witness for C9 amended, with a pre-existing file at the requested
output path. -/
theorem render_success_places_artifact_witness :
    (render ⟨"out.png", true, true, true, true, 20⟩ (fun _ => .exits 0) 1 ["out.png"]).1 =
      .success ∧
    (render ⟨"out.png", true, true, true, true, 20⟩ (fun _ => .exits 0) 1 ["out.png"]).2.1 =
      [REvent.materializeScript, .createOutfile, .spawn 0] ++
        (if fsHas ["out.png"] (RenderConfig.mk "out.png" true true true true 20).path then
          [REvent.removeFile (RenderConfig.mk "out.png" true true true true 20).path] else []) ++
        [REvent.copyFile outFileName (RenderConfig.mk "out.png" true true true true 20).path,
         .removeFile errLogName, .removeFile scriptFileName] ∧
    fsHas (render ⟨"out.png", true, true, true, true, 20⟩
      (fun _ => .exits 0) 1 ["out.png"]).2.2 (RenderConfig.mk "out.png" true true true true 20).path
      = true ∧
    fsHas (render ⟨"out.png", true, true, true, true, 20⟩
      (fun _ => .exits 0) 1 ["out.png"]).2.2 errLogName = false ∧
    fsHas (render ⟨"out.png", true, true, true, true, 20⟩
      (fun _ => .exits 0) 1 ["out.png"]).2.2 outFileName = true :=
  render_success_places_artifact ⟨"out.png", true, true, true, true, 20⟩ (fun _ => .exits 0)
    1 ["out.png"] .png (by decide) rfl rfl rfl rfl (by decide) rfl (by decide)
    (by decide) (by decide) (by decide)

/-- C9 counterexample: after a successful background run the temporary
render artifact STILL exists (the code calls `shutil.copy` and the
`os.remove(blender_outfile.name)` in `finally` is commented out), so the
temporary artifact was copied, not moved, refuting the claim's "the
temporary artifact moved there". -/
theorem success_leaves_temp_artifact_counterexample :
    (render ⟨"out.png", true, true, true, true, 20⟩ (fun _ => .exits 0) 1 []).1 = .success ∧
    countEv (REvent.copyFile outFileName "out.png")
      (render ⟨"out.png", true, true, true, true, 20⟩ (fun _ => .exits 0) 1 []).2.1 = 1 ∧
    fsHas (render ⟨"out.png", true, true, true, true, 20⟩ (fun _ => .exits 0) 1 []).2.2
      outFileName = true := by
  decide

end Eyemodel
